import Mathlib

/-!
Verification of the data-reconciliation core of `gerenciador-instrumentos`.

Shallow embedding of:
* `src/database/repository.py` — `InstrumentoRepository.sincronizar_dados`,
  the reconciliation engine (identity resolution, insert/update/delete,
  statistics, transactional commit/rollback);
* `src/database/models.py` — the `Instrumento` entity;
* `src/core/sharepoint_manager.py` — `_processar_dados_instrumentos`,
  the normalizer producing canonical records.

Modelling conventions:
* Python `dict` objects (JSON records, lookup dictionaries) are association
  lists; insertion overwrites, which is modelled by a last-binding-wins
  lookup (`getCampo`, `dictFind`).
* Python string truthiness (`if s:`) is `truthyS`: `None` and `""` are
  falsy, every other string truthy.
* Nullable ORM columns are `Option String`; the `Date` column
  `validade_certificado` is `Option DateD`.
* The SQLAlchemy `Session` is the transactional store collaborator
  (spec §4.4): mutations performed during `sincronizar_dados` are staged;
  `commit()` either applies them all or fails, in which case the
  `except` branch of the source calls `rollback()` (committed state
  unchanged) and re-raises.  A fault predicate on the staged result decides
  whether the commit fails.
* ORM metadata timestamps (`data_criacao`, `data_atualizacao`) are not
  modelled; no claim mentions them.
-/

/-- A calendar date, the result of Python's
`datetime.strptime(s, "%Y-%m-%d").date()`. -/
structure DateD where
  ano : Nat
  mes : Nat
  dia : Nat
deriving DecidableEq, Repr

/-- Leap-year test used by Python's `datetime.date` validation. -/
def bissexto (a : Nat) : Bool :=
  (a % 4 == 0 && a % 100 != 0) || (a % 400 == 0)

/-- Days in a month, as validated by Python's `datetime.date`. -/
def diasNoMes (a m : Nat) : Nat :=
  if m == 2 then (if bissexto a then 29 else 28)
  else if m == 4 || m == 6 || m == 9 || m == 11 then 30
  else 31

/-- `str.split('-')` on the character list of the input. -/
def splitDash : List Char → List (List Char)
  | [] => [[]]
  | c :: t =>
    if c == '-' then [] :: splitDash t
    else
      match splitDash t with
      | h :: r => (c :: h) :: r
      | [] => [[c]]

/-- Decimal value of a digit string. -/
def digitosVal (cs : List Char) : Nat :=
  cs.foldl (fun a c => a * 10 + (c.toNat - 48)) 0

/-- `datetime.strptime(s, "%Y-%m-%d").date()` as a total function:
`%Y` matches exactly four digits, `%m` and `%d` one or two digits, the
separators are literal `-`, the whole string must be consumed, and the
resulting triple must be a valid date with year ≥ 1 (otherwise Python
raises `ValueError`, i.e. `none` here). -/
def parseDataYMD (s : String) : Option DateD :=
  match splitDash s.data with
  | [ys, ms, ds] =>
    if ys.length == 4 && ys.all Char.isDigit
        && (ms.length == 1 || ms.length == 2) && ms.all Char.isDigit
        && (ds.length == 1 || ds.length == 2) && ds.all Char.isDigit then
      let a := digitosVal ys
      let m := digitosVal ms
      let d := digitosVal ds
      if 1 ≤ a && 1 ≤ m && m ≤ 12 && 1 ≤ d && d ≤ diasNoMes a m then
        some ⟨a, m, d⟩
      else none
    else none
  | _ => none

/-- The `instrumentos` table row (`src/database/models.py`, class
`Instrumento`).  `id` is the surrogate primary key (0 marks a staged,
not-yet-flushed row); all mutable columns are nullable strings except the
`Date` column `validade_certificado`. -/
structure Instrumento where
  id : Nat
  nome : Option String
  tipo : Option String
  marca : Option String
  modelo : Option String
  numero_serie : Option String
  descricao : Option String
  faixa : Option String
  unidade : Option String
  classe : Option String
  criterio_aceitacao : Option String
  intervalo_operacao : Option String
  spg : Option String
  ensaio : Option String
  localizacao : Option String
  status : Option String
  certificado : Option String
  validade_certificado : Option DateD
deriving DecidableEq, Repr

/-- A change-history row (spec §3; cf. `HistoricoInstrumento` in
`src/database/repositories.py`).  No such model exists in
`src/database/models.py` and `repository.py` never constructs one; the
table is modelled so that history-related properties can be stated. -/
structure Historico where
  instrumento_id : Nat
  campo_alterado : String
  valor_anterior : String
  valor_novo : String
deriving DecidableEq, Repr

/-- The synchronization statistics dictionary returned by
`sincronizar_dados`. -/
structure Stats where
  adicionados : Nat
  atualizados : Nat
  removidos : Nat
  avisos : Nat
deriving DecidableEq, Repr

/-- An incoming JSON record: a Python dict with string keys and string
values (the shape produced by the normalizer / the JSON file read by
`tools/gerenciador_instrumentos.py`). -/
abbrev RecJson := List (String × String)

/-- `dict.get(k)`: the binding of `k`, later bindings overwriting earlier
ones; `none` when the key is absent. -/
def getCampo (r : RecJson) (k : String) : Option String :=
  r.foldl (fun acc p => if p.1 = k then some p.2 else acc) none

/-- Python truthiness of an optional string: `None` and `""` are falsy. -/
def truthyS : Option String → Bool
  | none => false
  | some s => !(s == "")

/-- Membership in a Python `set` of strings, modelled as a list. -/
def memS (l : List String) (k : String) : Bool :=
  l.any (fun x => x == k)

/-- A lookup dictionary from identity value to the position of the owning
entity in the snapshot list. -/
abbrev Indice := List (String × Nat)

/-- `d[k]` on a Python dict built by successive insertions: the last
binding wins. -/
def dictFind (d : Indice) (k : String) : Option Nat :=
  d.foldl (fun acc p => if p.1 = k then some p.2 else acc) none

/-- The dict comprehension
`{key(inst): inst for inst in existentes if key(inst)}` of
`sincronizar_dados` (lines 69–70): one binding per entity whose key is
truthy — the placeholder `"-"` is truthy and therefore included — with
entities represented by their position in the snapshot list. -/
def buildIndex (key : Instrumento → Option String) (ents : List Instrumento) : Indice :=
  ents.enum.foldl
    (fun d p =>
      match key p.2 with
      | some s => if s == "" then d else d ++ [(s, p.1)]
      | none => d) []

/-- `inst_json.get('Instrumento')`. -/
def recNome (r : RecJson) : Option String := getCampo r "Instrumento"

/-- `inst_json.get('Número de Série')`. -/
def recSerie (r : RecJson) : Option String := getCampo r "Número de Série"

/-- The `elif nome and nome in instrumentos_por_nome` arm of lines 90–91. -/
def resolveNomeFallback (ni : Indice) (nome : Option String) : Option Nat :=
  match nome, dictFind ni (nome.getD "") with
  | some n, some i => if n == "" then none else some i
  | _, _ => none

/-- The `elif` chain of lines 87–91: serial-number lookup first (only when
the serial is truthy and present in the serial index), name lookup
otherwise (only when the name is truthy and present in the name index),
`none` when both miss. -/
def resolveMatch (si ni : Indice) (ns nome : Option String) : Option Nat :=
  match ns, dictFind si (ns.getD "") with
  | some s, some i => if s == "" then resolveNomeFallback ni nome else some i
  | _, _ => resolveNomeFallback ni nome

/-- Lines 93–101: the certificate-expiry conversion.  When the field is
truthy and not the placeholder `"-"`, parsing is attempted; a parse
failure leaves `validade = None` and counts one warning.  Returns the
value assigned to `validade` and the increment applied to `avisos`. -/
def parseValidade (v : Option String) : Option DateD × Nat :=
  match v with
  | some s =>
    if !(s == "") && !(s == "-") then
      match parseDataYMD s with
      | some d => (some d, 0)
      | none => (none, 1)
    else (none, 0)
  | none => (none, 0)

/-- Lines 105–121: the unconditional assignment of every mutable column of
a matched entity from the incoming record (`.get` of an absent key yields
`None`).  `id` is untouched. -/
def updateInstrumento (e : Instrumento) (r : RecJson) (nome ns : Option String)
    (validade : Option DateD) : Instrumento :=
  { e with
    spg := getCampo r "SPG"
    ensaio := getCampo r "Ensaio"
    nome := nome
    tipo := getCampo r "Tipo"
    marca := getCampo r "Marca"
    modelo := getCampo r "Modelo"
    numero_serie := ns
    localizacao := getCampo r "Localização"
    faixa := getCampo r "Faixa"
    unidade := getCampo r "Unidade"
    status := getCampo r "Status"
    classe := getCampo r "Classe"
    certificado := getCampo r "Certificado"
    descricao := getCampo r "Descrição"
    validade_certificado := validade
    criterio_aceitacao := getCampo r "CriterioAceitacao"
    intervalo_operacao := getCampo r "IntervaloOperacao" }

/-- Lines 126–144: `Instrumento(...)` constructed from the incoming
record and staged with `session.add` (surrogate id not yet assigned). -/
def novoInstrumento (r : RecJson) (nome ns : Option String)
    (validade : Option DateD) : Instrumento :=
  { id := 0
    spg := getCampo r "SPG"
    ensaio := getCampo r "Ensaio"
    nome := nome
    tipo := getCampo r "Tipo"
    marca := getCampo r "Marca"
    modelo := getCampo r "Modelo"
    numero_serie := ns
    localizacao := getCampo r "Localização"
    faixa := getCampo r "Faixa"
    unidade := getCampo r "Unidade"
    status := getCampo r "Status"
    classe := getCampo r "Classe"
    certificado := getCampo r "Certificado"
    descricao := getCampo r "Descrição"
    validade_certificado := validade
    criterio_aceitacao := getCampo r "CriterioAceitacao"
    intervalo_operacao := getCampo r "IntervaloOperacao" }

/-- In-place mutation of the Python object at position `i` of the
snapshot list (the lookup dictionaries alias list positions). -/
def updateAt : List Instrumento → Nat → (Instrumento → Instrumento) → List Instrumento
  | [], _, _ => []
  | e :: t, 0, f => f e :: t
  | e :: t, i + 1, f => e :: updateAt t i f

/-- Loop state of the `for inst_json in instrumentos_json` loop of
`sincronizar_dados`: the (mutable) snapshot entities, the staged new
entities, the counters, and the `processados` set. -/
structure SyncState where
  ents : List Instrumento
  novos : List Instrumento
  adicionados : Nat
  atualizados : Nat
  avisos : Nat
  processados : List String
deriving Repr

/-- Lines 103–146: update the matched entity in place (incrementing
`atualizados`) or stage a new entity (incrementing `adicionados`). -/
def aplicarMatch (si ni : Indice) (r : RecJson) (st : SyncState) : SyncState :=
  match resolveMatch si ni (recSerie r) (recNome r) with
  | some i =>
    { st with
      ents := updateAt st.ents i
        (fun e => updateInstrumento e r (recNome r) (recSerie r)
          (parseValidade (getCampo r "ValidadeCertificado")).1)
      atualizados := st.atualizados + 1 }
  | none =>
    { st with
      novos := st.novos ++ [novoInstrumento r (recNome r) (recSerie r)
        (parseValidade (getCampo r "ValidadeCertificado")).1]
      adicionados := st.adicionados + 1 }

/-- Lines 148–152: `if numero_serie: processados.add(numero_serie)
elif nome: processados.add(nome)`. -/
def marcarProcessado (ns nome : Option String) (st : SyncState) : SyncState :=
  if truthyS ns then { st with processados := ns.getD "" :: st.processados }
  else if truthyS nome then { st with processados := nome.getD "" :: st.processados }
  else st

/-- One iteration of the loop (lines 82–152): count a warning for a
malformed expiry date, resolve identity and update or insert, and record
the identity key in `processados`. -/
def processRecord (si ni : Indice) (st : SyncState) (r : RecJson) : SyncState :=
  marcarProcessado (recSerie r) (recNome r)
    (aplicarMatch si ni r
      { st with avisos := st.avisos + (parseValidade (getCampo r "ValidadeCertificado")).2 })

/-- `identificador = inst.numero_serie or inst.nome` (line 156): the
serial when truthy, otherwise the name. -/
def orKey (e : Instrumento) : Option String :=
  if truthyS e.numero_serie then e.numero_serie else e.nome

/-- The deletion condition of lines 155–159: a truthy identifier that is
not in `processados`. -/
def staleB (processados : List String) (e : Instrumento) : Bool :=
  truthyS (orKey e) && !(memS processados ((orKey e).getD ""))

/-- `instrumentos_por_numero_serie` (line 69). -/
def indiceSerie (ents : List Instrumento) : Indice :=
  buildIndex (fun e => e.numero_serie) ents

/-- `instrumentos_por_nome` (line 70). -/
def indiceNome (ents : List Instrumento) : Indice :=
  buildIndex (fun e => e.nome) ents

/-- Identity resolution of one record against the indexes built from a
snapshot. -/
def resolveMatchFor (ents : List Instrumento) (r : RecJson) : Option Nat :=
  resolveMatch (indiceSerie ents) (indiceNome ents) (recSerie r) (recNome r)

/-- Lines 64–152: build the two lookup dictionaries from the pre-run
snapshot and run the record loop from the initial counters. -/
def sincronizarLoop (ents0 : List Instrumento) (batch : List RecJson) : SyncState :=
  batch.foldl
    (processRecord (indiceSerie ents0) (indiceNome ents0))
    { ents := ents0, novos := [], adicionados := 0, atualizados := 0,
      avisos := 0, processados := [] }

/-- The staged outcome of one reconciliation run (lines 64–159): run the
record loop, delete every stale entity (lines 155–159), and return the
would-be-committed entity list (surviving snapshot entities followed by
the staged inserts) with the statistics. -/
def sincronizarStage (ents0 : List Instrumento) (batch : List RecJson) :
    List Instrumento × Stats :=
  let st := sincronizarLoop ents0 batch
  (st.ents.filter (fun e => !(staleB st.processados e)) ++ st.novos,
    { adicionados := st.adicionados, atualizados := st.atualizados,
      removidos := (st.ents.filter (fun e => staleB st.processados e)).length,
      avisos := st.avisos })

/-- The committed database state held by the SQLAlchemy session: the
`instrumentos` table and the (spec §3) change-history side table. -/
structure SessionDB where
  instrumentos : List Instrumento
  historico : List Historico
deriving DecidableEq, Repr

/-- `sincronizar_dados` (lines 53–178) end to end.  All mutations staged
by the loop reach the store only through the single `commit()` of line
162; `fault` decides whether that commit fails (constraint violation,
transaction conflict).  On failure the `except` branch (lines 175–178)
calls `rollback()` — committed state unchanged — and re-raises; on success
the staged state is installed and the statistics dictionary returned. -/
def sincronizar_dados (fault : List Instrumento → Bool) (s : SessionDB)
    (batch : List RecJson) : SessionDB × Except String Stats :=
  let staged := sincronizarStage s.instrumentos batch
  if fault staged.1 then
    (s, Except.error "Erro ao sincronizar dados")
  else
    ({ instrumentos := staged.1, historico := s.historico }, Except.ok staged.2)

/-- One entry of the raw `inst_range` list: a dict read only through
`range_info.get('min', '0')`, `get('max', '')`, `get('unit', '')`
(`_processar_dados_instrumentos`, lines 377–384). -/
structure RangeRow where
  minV : Option String
  maxV : Option String
  unitV : Option String

/-- A raw scraped field value.  The normalizer reads scalar fields through
`str(...)` and reads `sensor_status` by comparison with the integers 1/0;
`inst_range` is a list of dicts.  Scalars are modelled as strings and
integers (the shapes the scraper produces); `str()` of a list value is
abbreviated. -/
inductive RawVal where
  | vstr : String → RawVal
  | vint : Int → RawVal
  | vrange : List RangeRow → RawVal

/-- Python `str(...)` on a raw value. -/
def pyStr : RawVal → String
  | .vstr s => s
  | .vint n => toString n
  | .vrange _ => "[...]"

/-- A raw scraped record (Python dict). -/
abbrev RawRec := List (String × RawVal)

/-- `raw[k]` / key-presence test on a raw dict (last binding wins). -/
def getRaw (raw : RawRec) (k : String) : Option RawVal :=
  raw.foldl (fun acc p => if p.1 = k then some p.2 else acc) none

/-- `if k in instrumento: processado[c] = str(instrumento[k])`: the mapped
value, or the default placeholder `"-"`. -/
def campoBruto (raw : RawRec) (k : String) : String :=
  match getRaw raw k with
  | some v => pyStr v
  | none => "-"

/-- Python `\s` whitespace (ASCII forms). -/
def isEspaco (c : Char) : Bool :=
  c == ' ' || c == '\t' || c == '\n' || c == '\r' || c == '\x0b' || c == '\x0c'

/-- `re.search(r'\[(SPG\d+)\]', exp_name)` (line 359): scan left to right
for `[SPG`, one or more digits, `]`; the captured group includes the
`SPG` prefix. -/
def findSpg : List Char → Option String
  | [] => none
  | '[' :: 'S' :: 'P' :: 'G' :: rest =>
    let ds := rest.takeWhile Char.isDigit
    let sobra := rest.dropWhile Char.isDigit
    if !ds.isEmpty && sobra.head? == some ']' then
      some (String.mk ('S' :: 'P' :: 'G' :: ds))
    else findSpg ('S' :: 'P' :: 'G' :: rest)
  | _ :: rest => findSpg rest

/-- `re.search(r'Ensaio\s+(\d+)', exp_name)` (line 360): scan for
`Ensaio`, one or more whitespace characters, one or more digits; the
captured group is the digit run. -/
def findEnsaioNum : List Char → Option String
  | [] => none
  | 'E' :: 'n' :: 's' :: 'a' :: 'i' :: 'o' :: rest =>
    let sp := rest.takeWhile isEspaco
    let aposSp := rest.dropWhile isEspaco
    let ds := aposSp.takeWhile Char.isDigit
    if !sp.isEmpty && !ds.isEmpty then some (String.mk ds)
    else findEnsaioNum ('n' :: 's' :: 'a' :: 'i' :: 'o' :: rest)
  | _ :: rest => findEnsaioNum rest

/-- Lines 356–366: SPG / Ensaio extraction from `exp_name`; either piece
keeps its placeholder when its pattern is absent. -/
def spgEnsaioDe (raw : RawRec) : String × String :=
  match getRaw raw "exp_name" with
  | some v =>
    let cs := (pyStr v).data
    ((findSpg cs).getD "-",
      match findEnsaioNum cs with
      | some num => "Ensaio " ++ num
      | none => "-")
  | none => ("-", "-")

/-- Lines 368–374: tri-state `sensor_status` mapping.  The comparison is
`status == 1` / `status == 0` on the raw value, so only the integer forms
map to `Ativo`/`Bloqueado`; anything else keeps the placeholder. -/
def statusDe (raw : RawRec) : String :=
  match getRaw raw "sensor_status" with
  | some (.vint 1) => "Ativo"
  | some (.vint 0) => "Bloqueado"
  | _ => "-"

/-- Lines 376–384: operating-interval formatting from the first
`inst_range` entry, only when the list is non-empty and both `max` and
`unit` are truthy. -/
def intervaloDe (raw : RawRec) : String :=
  match getRaw raw "inst_range" with
  | some (.vrange (row :: _)) =>
    let minv := row.minV.getD "0"
    let maxv := row.maxV.getD ""
    let unitv := row.unitV.getD ""
    if !(maxv == "") && !(unitv == "") then
      minv ++ " - " ++ maxv ++ " " ++ unitv
    else "-"
  | _ => "-"

/-- Lines 300–384: the fully populated 17-key canonical dict for one raw
record, in source insertion order, before the placeholder-removal filter.
`Unidade` and `Classe` are never assigned from raw data and always hold
the placeholder. -/
def processarInstrumento (raw : RawRec) : List (String × String) :=
  let se := spgEnsaioDe raw
  [("SPG", se.1),
   ("Ensaio", se.2),
   ("Instrumento", campoBruto raw "name"),
   ("Tipo", campoBruto raw "type"),
   ("Marca", campoBruto raw "brand"),
   ("Modelo", campoBruto raw "model"),
   ("Número de Série", campoBruto raw "serial_num"),
   ("Localização", campoBruto raw "location"),
   ("Faixa", campoBruto raw "range"),
   ("Unidade", "-"),
   ("Status", statusDe raw),
   ("Classe", "-"),
   ("Certificado", campoBruto raw "certif_num"),
   ("Descrição", campoBruto raw "description"),
   ("ValidadeCertificado", campoBruto raw "certif_end_date"),
   ("CriterioAceitacao", campoBruto raw "acceptance_status"),
   ("IntervaloOperacao", intervaloDe raw)]

/-- `_processar_dados_instrumentos` (lines 283–404): for each raw record,
build the canonical dict, drop every field whose value is the placeholder
(`{k: v for k, v in ... if v != '-'}`, line 387), and keep the record only
when the mandatory keys `Instrumento` and `Tipo` survived (lines
389–394). -/
def processarDadosInstrumentos (dados : List RawRec) : List (List (String × String)) :=
  dados.foldl
    (fun acc raw =>
      let proc := (processarInstrumento raw).filter (fun p => !(p.2 == "-"))
      if proc.any (fun p => p.1 == "Instrumento") && proc.any (fun p => p.1 == "Tipo") then
        acc ++ [proc]
      else acc) []

/-- The identity key the loop records in `processados` for an incoming
record: the serial number when truthy, else the name when truthy, else
nothing (lines 148–152). -/
def recKey (r : RecJson) : Option String :=
  if truthyS (recSerie r) then recSerie r
  else if truthyS (recNome r) then recNome r
  else none

/-- The identity keys contributed to `processados` by a batch. -/
def chavesDe (batch : List RecJson) : List String :=
  batch.filterMap recKey

/-- The `validade` value staged for a record. -/
def validadeDe (r : RecJson) : Option DateD :=
  (parseValidade (getCampo r "ValidadeCertificado")).1

/-- The identifier an entity presents to the deletion loop, when the
entity's fields were just assigned from record `r`. -/
def orKeyRec (r : RecJson) : Option String :=
  if truthyS (recSerie r) then recSerie r else recNome r

/-- An entity whose truthy deletion-loop identifier is covered by the key
set `K` (such an entity is never deleted when `processados` covers `K`). -/
def goodE (K : List String) (e : Instrumento) : Prop :=
  truthyS (orKey e) = true → (orKey e).getD "" ∈ K

/-- An entity with every nullable column null (base for the concrete
examples below). -/
def instrumentoVazio : Instrumento :=
  { id := 0, nome := none, tipo := none, marca := none, modelo := none,
    numero_serie := none, descricao := none, faixa := none, unidade := none,
    classe := none, criterio_aceitacao := none, intervalo_operacao := none,
    spg := none, ensaio := none, localizacao := none, status := none,
    certificado := none, validade_certificado := none }

/-- A minimal incoming record (name and type only). -/
def recA : RecJson := [("Instrumento", "A"), ("Tipo", "T")]

/-- Persisted entity with location `L1`. -/
def entC2 : Instrumento :=
  { instrumentoVazio with
    id := 1
    nome := some "A"
    tipo := some "T"
    localizacao := some "L1" }

/-- Incoming record matching `entC2` by name, with a changed location. -/
def recC2 : RecJson := [("Instrumento", "A"), ("Tipo", "T"), ("Localização", "L2")]

/-- Persisted entity whose serial number is the placeholder. -/
def entC4 : Instrumento :=
  { instrumentoVazio with
    id := 2
    nome := some "A"
    tipo := some "T"
    numero_serie := some "-" }

/-- Incoming record with placeholder serial and a different name. -/
def recC4 : RecJson := [("Instrumento", "B"), ("Número de Série", "-"), ("Tipo", "T")]

/-- First of two persisted entities sharing serial number `S`. -/
def entC5a : Instrumento :=
  { instrumentoVazio with
    id := 3
    nome := some "A"
    tipo := some "T"
    numero_serie := some "S" }

/-- Second of two persisted entities sharing serial number `S`. -/
def entC5b : Instrumento :=
  { instrumentoVazio with
    id := 4
    nome := some "B"
    tipo := some "T"
    numero_serie := some "S" }

/-- Persisted entity with empty-string name and no serial number. -/
def entC6 : Instrumento :=
  { instrumentoVazio with
    id := 5
    nome := some ""
    tipo := some "T" }

/-- Persisted entity with a certificate-expiry date on record. -/
def entC7 : Instrumento :=
  { instrumentoVazio with
    id := 6
    nome := some "A"
    tipo := some "T"
    validade_certificado := some ⟨2025, 1, 1⟩ }

/-- Incoming record with an unparseable certificate-expiry date. -/
def recC7 : RecJson :=
  [("Instrumento", "A"), ("Tipo", "T"), ("ValidadeCertificado", "31/12/2025")]

/-- Persisted entity with brand and status filled in. -/
def entC10 : Instrumento :=
  { instrumentoVazio with
    id := 7
    nome := some "A"
    tipo := some "T"
    marca := some "M"
    status := some "Ativo" }

/-- Incoming record carrying only the name key. -/
def recC10 : RecJson := [("Instrumento", "A")]

/-- A raw scraped record carrying only name and type. -/
def rawC8 : RawRec := [("name", RawVal.vstr "X"), ("type", RawVal.vstr "T")]

/-- The canonical record the normalizer produces from `rawC8`. -/
def recProcC8 : List (String × String) := [("Instrumento", "X"), ("Tipo", "T")]

example : parseDataYMD "2024-05-10" = some ⟨2024, 5, 10⟩ := by decide
example : parseDataYMD "31/12/2025" = none := by decide
example : parseDataYMD "2024-13-01" = none := by decide
example : parseDataYMD "2024-02-30" = none := by decide
example : parseDataYMD "2024-2-29" = some ⟨2024, 2, 29⟩ := by decide
example : parseDataYMD "2023-02-29" = none := by decide

/-! ### Basic lemmas about the container helpers -/

theorem memS_iff (l : List String) (k : String) : memS l k = true ↔ k ∈ l := by
  simp [memS, List.any_eq_true]

theorem truthyS_some (o : Option String) (h : truthyS o = true) :
    o = some (o.getD "") := by
  cases o with
  | none => simp [truthyS] at h
  | some s => rfl

theorem length_updateAt (l : List Instrumento) (i : Nat)
    (f : Instrumento → Instrumento) : (updateAt l i f).length = l.length := by
  induction l generalizing i with
  | nil => rfl
  | cons a t ih =>
    cases i with
    | zero => simp [updateAt]
    | succ j => simp [updateAt, ih]

theorem mem_updateAt (l : List Instrumento) (i : Nat)
    (f : Instrumento → Instrumento) (e : Instrumento)
    (h : e ∈ updateAt l i f) : e ∈ l ∨ ∃ e0, e0 ∈ l ∧ e = f e0 := by
  induction l generalizing i with
  | nil => simp [updateAt] at h
  | cons a t ih =>
    cases i with
    | zero =>
      rcases (List.mem_cons).mp h with h1 | h1
      · exact Or.inr ⟨a, List.mem_cons_self a t, h1⟩
      · exact Or.inl (List.mem_cons_of_mem a h1)
    | succ j =>
      rcases (List.mem_cons).mp h with h1 | h1
      · exact Or.inl (h1 ▸ List.mem_cons_self a t)
      · rcases ih j h1 with h2 | ⟨e0, he0, hfe⟩
        · exact Or.inl (List.mem_cons_of_mem a h2)
        · exact Or.inr ⟨e0, List.mem_cons_of_mem a he0, hfe⟩

/-! ### Shape lemmas for one loop iteration -/


theorem truthyS_exists {o : Option String} (h : truthyS o = true) :
    ∃ s, o = some s ∧ (s == "") = false := by
  cases o with
  | none => simp [truthyS] at h
  | some s =>
    refine ⟨s, rfl, ?_⟩
    simpa [truthyS] using h

theorem marcarProcessado_frame (ns nome : Option String) (st : SyncState) :
    (marcarProcessado ns nome st).ents = st.ents ∧
    (marcarProcessado ns nome st).novos = st.novos ∧
    (marcarProcessado ns nome st).adicionados = st.adicionados ∧
    (marcarProcessado ns nome st).atualizados = st.atualizados ∧
    (marcarProcessado ns nome st).avisos = st.avisos := by
  unfold marcarProcessado
  cases truthyS ns <;> cases truthyS nome <;> simp

theorem marcarProcessado_processados (ns nome : Option String) (st : SyncState) :
    (marcarProcessado ns nome st).processados
      = ((if truthyS ns then ns else if truthyS nome then nome else none).elim
          st.processados (fun k => k :: st.processados)) := by
  unfold marcarProcessado
  cases hts : truthyS ns with
  | true =>
    obtain ⟨s, hs, _⟩ := truthyS_exists hts
    simp [hts, hs]
  | false =>
    cases htn : truthyS nome with
    | true =>
      obtain ⟨n, hn, _⟩ := truthyS_exists htn
      simp [hts, htn, hn]
    | false => simp [hts, htn]

theorem aplicarMatch_processados (si ni : Indice) (r : RecJson) (st : SyncState) :
    (aplicarMatch si ni r st).processados = st.processados := by
  cases hm : resolveMatch si ni (recSerie r) (recNome r) <;> simp [aplicarMatch, hm]

theorem aplicarMatch_avisos (si ni : Indice) (r : RecJson) (st : SyncState) :
    (aplicarMatch si ni r st).avisos = st.avisos := by
  cases hm : resolveMatch si ni (recSerie r) (recNome r) <;> simp [aplicarMatch, hm]

theorem aplicarMatch_counts (si ni : Indice) (r : RecJson) (st : SyncState) :
    (aplicarMatch si ni r st).adicionados + (aplicarMatch si ni r st).atualizados
      = st.adicionados + st.atualizados + 1 := by
  cases hm : resolveMatch si ni (recSerie r) (recNome r) <;>
    simp [aplicarMatch, hm] <;> omega

theorem aplicarMatch_ents_length (si ni : Indice) (r : RecJson) (st : SyncState) :
    (aplicarMatch si ni r st).ents.length = st.ents.length := by
  cases hm : resolveMatch si ni (recSerie r) (recNome r) <;>
    simp [aplicarMatch, hm, length_updateAt]

theorem aplicarMatch_mem_ents (si ni : Indice) (r : RecJson) (st : SyncState)
    (e : Instrumento) (h : e ∈ (aplicarMatch si ni r st).ents) :
    e ∈ st.ents ∨ ∃ e0, e = updateInstrumento e0 r (recNome r) (recSerie r) (validadeDe r) := by
  cases hm : resolveMatch si ni (recSerie r) (recNome r) with
  | none =>
    simp [aplicarMatch, hm] at h
    exact Or.inl h
  | some i =>
    simp [aplicarMatch, hm] at h
    rcases mem_updateAt _ _ _ _ h with h1 | ⟨e0, _, hfe⟩
    · exact Or.inl h1
    · exact Or.inr ⟨e0, by simpa [validadeDe] using hfe⟩

theorem aplicarMatch_mem_novos (si ni : Indice) (r : RecJson) (st : SyncState)
    (e : Instrumento) (h : e ∈ (aplicarMatch si ni r st).novos) :
    e ∈ st.novos ∨ e = novoInstrumento r (recNome r) (recSerie r) (validadeDe r) := by
  cases hm : resolveMatch si ni (recSerie r) (recNome r) with
  | some i =>
    simp [aplicarMatch, hm] at h
    exact Or.inl h
  | none =>
    simp [aplicarMatch, hm] at h
    rcases h with h | h
    · exact Or.inl h
    · exact Or.inr (by simpa [validadeDe] using h)

/-! ### Shape lemmas for one loop iteration -/

theorem processRecord_processados (si ni : Indice) (st : SyncState) (r : RecJson) :
    (processRecord si ni st r).processados
      = (recKey r).elim st.processados (fun k => k :: st.processados) := by
  unfold processRecord recKey
  rw [marcarProcessado_processados, aplicarMatch_processados]

theorem processRecord_counts (si ni : Indice) (st : SyncState) (r : RecJson) :
    (processRecord si ni st r).adicionados + (processRecord si ni st r).atualizados
      = st.adicionados + st.atualizados + 1 := by
  unfold processRecord
  rw [(marcarProcessado_frame _ _ _).2.2.1, (marcarProcessado_frame _ _ _).2.2.2.1]
  rw [aplicarMatch_counts]

theorem processRecord_avisos (si ni : Indice) (st : SyncState) (r : RecJson) :
    (processRecord si ni st r).avisos
      = st.avisos + (parseValidade (getCampo r "ValidadeCertificado")).2 := by
  unfold processRecord
  rw [(marcarProcessado_frame _ _ _).2.2.2.2, aplicarMatch_avisos]

theorem processRecord_ents_length (si ni : Indice) (st : SyncState) (r : RecJson) :
    (processRecord si ni st r).ents.length = st.ents.length := by
  unfold processRecord
  rw [(marcarProcessado_frame _ _ _).1, aplicarMatch_ents_length]

theorem processRecord_mem_ents (si ni : Indice) (st : SyncState) (r : RecJson)
    (e : Instrumento) (h : e ∈ (processRecord si ni st r).ents) :
    e ∈ st.ents ∨ ∃ e0, e = updateInstrumento e0 r (recNome r) (recSerie r) (validadeDe r) := by
  unfold processRecord at h
  rw [(marcarProcessado_frame _ _ _).1] at h
  simpa using aplicarMatch_mem_ents si ni r
    { st with avisos := st.avisos + (parseValidade (getCampo r "ValidadeCertificado")).2 } e h

theorem processRecord_mem_novos (si ni : Indice) (st : SyncState) (r : RecJson)
    (e : Instrumento) (h : e ∈ (processRecord si ni st r).novos) :
    e ∈ st.novos ∨ e = novoInstrumento r (recNome r) (recSerie r) (validadeDe r) := by
  unfold processRecord at h
  rw [(marcarProcessado_frame _ _ _).2.1] at h
  simpa using aplicarMatch_mem_novos si ni r
    { st with avisos := st.avisos + (parseValidade (getCampo r "ValidadeCertificado")).2 } e h

/-! ### Lemmas about the whole record loop -/

theorem foldl_processados_mem (si ni : Indice) (batch : List RecJson)
    (st : SyncState) (k : String) :
    (k ∈ (batch.foldl (processRecord si ni) st).processados
      ↔ k ∈ chavesDe batch ∨ k ∈ st.processados) := by
  induction batch generalizing st with
  | nil => simp [chavesDe]
  | cons r t ih =>
    simp only [List.foldl_cons]
    rw [ih]
    cases hk : recKey r with
    | none =>
      simp only [chavesDe, List.filterMap_cons, hk, processRecord_processados,
        Option.elim_none]
    | some a =>
      simp only [chavesDe, List.filterMap_cons, hk, processRecord_processados,
        Option.elim_some, List.mem_cons]
      tauto

theorem foldl_counts (si ni : Indice) (batch : List RecJson) (st : SyncState) :
    (batch.foldl (processRecord si ni) st).adicionados
        + (batch.foldl (processRecord si ni) st).atualizados
      = st.adicionados + st.atualizados + batch.length := by
  induction batch generalizing st with
  | nil => simp
  | cons r t ih =>
    simp only [List.foldl_cons, List.length_cons]
    rw [ih, processRecord_counts]
    omega

theorem foldl_ents_length (si ni : Indice) (batch : List RecJson) (st : SyncState) :
    (batch.foldl (processRecord si ni) st).ents.length = st.ents.length := by
  induction batch generalizing st with
  | nil => rfl
  | cons r t ih =>
    simp only [List.foldl_cons]
    rw [ih, processRecord_ents_length]

theorem foldl_mem_ents (si ni : Indice) (batch : List RecJson) (st : SyncState)
    (e : Instrumento) (h : e ∈ (batch.foldl (processRecord si ni) st).ents) :
    e ∈ st.ents
      ∨ ∃ r ∈ batch, ∃ e0,
          e = updateInstrumento e0 r (recNome r) (recSerie r) (validadeDe r) := by
  induction batch generalizing st with
  | nil => exact Or.inl h
  | cons r t ih =>
    simp only [List.foldl_cons] at h
    rcases ih _ h with h1 | ⟨r2, hr2, e0, he⟩
    · rcases processRecord_mem_ents si ni st r e h1 with h2 | ⟨e0, he⟩
      · exact Or.inl h2
      · exact Or.inr ⟨r, List.mem_cons_self r t, e0, he⟩
    · exact Or.inr ⟨r2, List.mem_cons_of_mem r hr2, e0, he⟩

theorem foldl_mem_novos (si ni : Indice) (batch : List RecJson) (st : SyncState)
    (e : Instrumento) (h : e ∈ (batch.foldl (processRecord si ni) st).novos) :
    e ∈ st.novos
      ∨ ∃ r ∈ batch,
          e = novoInstrumento r (recNome r) (recSerie r) (validadeDe r) := by
  induction batch generalizing st with
  | nil => exact Or.inl h
  | cons r t ih =>
    simp only [List.foldl_cons] at h
    rcases ih _ h with h1 | ⟨r2, hr2, he⟩
    · rcases processRecord_mem_novos si ni st r e h1 with h2 | he
      · exact Or.inl h2
      · exact Or.inr ⟨r, List.mem_cons_self r t, he⟩
    · exact Or.inr ⟨r2, List.mem_cons_of_mem r hr2, he⟩

/-! ### Entities written from a record are never stale -/

theorem orKey_updateInstrumento (e0 : Instrumento) (r : RecJson) (v : Option DateD) :
    orKey (updateInstrumento e0 r (recNome r) (recSerie r) v) = orKeyRec r := rfl

theorem orKey_novoInstrumento (r : RecJson) (v : Option DateD) :
    orKey (novoInstrumento r (recNome r) (recSerie r) v) = orKeyRec r := rfl

theorem recKey_eq_orKeyRec (r : RecJson) (h : truthyS (orKeyRec r) = true) :
    recKey r = orKeyRec r := by
  unfold orKeyRec at h ⊢
  unfold recKey
  cases hts : truthyS (recSerie r) with
  | true => simp [hts]
  | false =>
    rw [hts] at h
    simp only [Bool.false_eq_true, if_false] at h
    simp [h]

theorem goodE_of_orKeyRec (batch : List RecJson) (r : RecJson) (hr : r ∈ batch)
    (x : Instrumento) (hx : orKey x = orKeyRec r) : goodE (chavesDe batch) x := by
  intro ht
  rw [hx] at ht ⊢
  have hk : recKey r = orKeyRec r := recKey_eq_orKeyRec r ht
  have hsome := truthyS_some _ ht
  refine List.mem_filterMap.mpr ⟨r, hr, ?_⟩
  rw [hk]
  exact hsome

theorem staleB_eq_false_of_good {P K : List String} {e : Instrumento}
    (hg : goodE K e) (hPK : ∀ k ∈ K, k ∈ P) : staleB P e = false := by
  unfold staleB
  cases ht : truthyS (orKey e) with
  | false => simp [ht]
  | true =>
    have hm : memS P ((orKey e).getD "") = true := (memS_iff _ _).mpr (hPK _ (hg ht))
    simp [ht, hm]

theorem stage_mem_good (ents0 : List Instrumento) (batch : List RecJson)
    (e : Instrumento) (h : e ∈ (sincronizarStage ents0 batch).1) :
    goodE (chavesDe batch) e := by
  have h2 : e ∈ (sincronizarLoop ents0 batch).ents.filter
        (fun x => !(staleB (sincronizarLoop ents0 batch).processados x))
      ∨ e ∈ (sincronizarLoop ents0 batch).novos := by
    simpa [sincronizarStage] using h
  rcases h2 with h2 | h2
  · obtain ⟨hmem, hcond⟩ := List.mem_filter.mp h2
    intro ht
    have hstale : staleB (sincronizarLoop ents0 batch).processados e = false := by
      simpa using hcond
    unfold staleB at hstale
    rw [ht] at hstale
    simp only [Bool.true_and, Bool.not_eq_false] at hstale
    have hk : (orKey e).getD "" ∈ (sincronizarLoop ents0 batch).processados :=
      (memS_iff _ _).mp (by simpa using hstale)
    unfold sincronizarLoop at hk
    rcases (foldl_processados_mem _ _ _ _ _).mp hk with hk1 | hk1
    · exact hk1
    · simp at hk1
  · unfold sincronizarLoop at h2
    rcases foldl_mem_novos _ _ _ _ _ h2 with h3 | ⟨r, hr, rfl⟩
    · simp at h3
    · exact goodE_of_orKeyRec batch r hr _ (orKey_novoInstrumento r _)

theorem removidos_second_run (ents0 : List Instrumento) (batch : List RecJson) :
    (sincronizarStage (sincronizarStage ents0 batch).1 batch).2.removidos = 0 := by
  have hgood1 : ∀ e ∈ (sincronizarStage ents0 batch).1, goodE (chavesDe batch) e :=
    fun e he => stage_mem_good _ _ e he
  have hPK : ∀ k ∈ chavesDe batch,
      k ∈ (sincronizarLoop (sincronizarStage ents0 batch).1 batch).processados := by
    intro k hk
    unfold sincronizarLoop
    exact (foldl_processados_mem _ _ _ _ _).mpr (Or.inl hk)
  have hallgood : ∀ e ∈ (sincronizarLoop (sincronizarStage ents0 batch).1 batch).ents,
      goodE (chavesDe batch) e := by
    intro e he
    unfold sincronizarLoop at he
    rcases foldl_mem_ents _ _ _ _ _ he with he1 | ⟨r, hr, e0, rfl⟩
    · exact hgood1 e he1
    · exact goodE_of_orKeyRec batch r hr _ (orKey_updateInstrumento e0 r _)
  have hfilter : (sincronizarLoop (sincronizarStage ents0 batch).1 batch).ents.filter
      (staleB (sincronizarLoop (sincronizarStage ents0 batch).1 batch).processados) = [] := by
    rw [List.filter_eq_nil_iff]
    intro e he
    rw [staleB_eq_false_of_good (hallgood e he) hPK]
    simp
  show ((sincronizarLoop (sincronizarStage ents0 batch).1 batch).ents.filter
      (staleB (sincronizarLoop (sincronizarStage ents0 batch).1 batch).processados)).length = 0
  rw [hfilter]
  rfl

/-! ### Characterization of the lookup dictionaries -/

theorem exists_append_single_iff {l : List Instrumento} {e : Instrumento}
    {p : Instrumento → Prop} :
    (∃ x ∈ l ++ [e], p x) ↔ (∃ x ∈ l, p x) ∨ p e := by
  constructor
  · rintro ⟨x, hx, hp⟩
    rcases List.mem_append.mp hx with hx | hx
    · exact Or.inl ⟨x, hx, hp⟩
    · exact Or.inr ((List.mem_singleton.mp hx) ▸ hp)
  · rintro (⟨x, hx, hp⟩ | hp)
    · exact ⟨x, List.mem_append_left _ hx, hp⟩
    · exact ⟨e, List.mem_append_right _ (List.mem_singleton_self e), hp⟩

theorem dictFind_aux (d : Indice) (acc : Option Nat) (k : String) :
    d.foldl (fun a p => if p.1 = k then some p.2 else a) acc
      = match dictFind d k with
        | some v => some v
        | none => acc := by
  induction d generalizing acc with
  | nil => simp [dictFind]
  | cons p t ih =>
    have hcons : dictFind (p :: t) k
        = match dictFind t k with
          | some v => some v
          | none => if p.1 = k then some p.2 else none := by
      show List.foldl _ (if p.1 = k then some p.2 else none) t = _
      exact ih _
    rw [List.foldl_cons, ih, hcons]
    cases hd : dictFind t k with
    | some v => rfl
    | none =>
      by_cases hp : p.1 = k
      · simp [hp]
      · simp [hp]

theorem dictFind_append (d1 d2 : Indice) (k : String) :
    dictFind (d1 ++ d2) k
      = match dictFind d2 k with
        | some v => some v
        | none => dictFind d1 k := by
  unfold dictFind
  rw [List.foldl_append]
  exact dictFind_aux d2 _ k

theorem dictFind_snoc (d : Indice) (s : String) (n : Nat) (k : String) :
    dictFind (d ++ [(s, n)]) k = if s = k then some n else dictFind d k := by
  rw [dictFind_append]
  by_cases h : s = k
  · simp [dictFind, h]
  · simp [dictFind, h]

theorem buildIndex_append_single (key : Instrumento → Option String)
    (ents : List Instrumento) (e : Instrumento) :
    buildIndex key (ents ++ [e])
      = buildIndex key ents ++
          (match key e with
           | some s => if s == "" then [] else [(s, ents.length)]
           | none => []) := by
  unfold buildIndex
  rw [List.enum_append, List.foldl_append]
  show (List.enumFrom ents.length [e]).foldl _ _ = _
  cases hke : key e with
  | none => simp [List.enumFrom, hke]
  | some s =>
    by_cases hs : s = ""
    · simp [List.enumFrom, hke, hs]
    · simp [List.enumFrom, hke, hs]

theorem dictFind_buildIndex_isSome (key : Instrumento → Option String)
    (ents : List Instrumento) (k : String) (hk : ¬ k = "") :
    (dictFind (buildIndex key ents) k).isSome = true ↔ ∃ e ∈ ents, key e = some k := by
  induction ents using List.reverseRecOn with
  | nil => simp [buildIndex, dictFind]
  | append_singleton l e ih =>
    rw [buildIndex_append_single]
    rw [exists_append_single_iff]
    cases hke : key e with
    | none =>
      simp only [List.append_nil]
      rw [ih]
      simp [hke]
    | some s =>
      by_cases hs : s = ""
      · have hsb : (s == "") = true := by simpa using hs
        simp only [hsb, if_true, List.append_nil]
        rw [ih]
        subst hs
        simp [hke]
        intro h
        exact absurd h.symm hk
      · have hsb : (s == "") = false := by simpa using hs
        simp only [hsb, Bool.false_eq_true, if_false]
        rw [dictFind_snoc]
        by_cases hsk : s = k
        · subst hsk
          rw [if_pos rfl]
          constructor
          · intro _
            exact Or.inr rfl
          · intro _
            rfl
        · rw [if_neg hsk, ih]
          simp [hke, hsk]

theorem dictFind_buildIndex_last (key : Instrumento → Option String)
    (ents : List Instrumento) (k : String) (i : Nat)
    (hk : ¬ k = "") (h : dictFind (buildIndex key ents) k = some i) :
    ∃ pre x suf, ents = pre ++ x :: suf ∧ pre.length = i ∧ key x = some k
      ∧ ∀ y ∈ suf, key y ≠ some k := by
  induction ents using List.reverseRecOn generalizing i with
  | nil => simp [buildIndex, dictFind] at h
  | append_singleton l e ih =>
    rw [buildIndex_append_single] at h
    cases hke : key e with
    | none =>
      simp only [hke, List.append_nil] at h
      obtain ⟨pre, x, suf, hdec, hlen, hkey, hlast⟩ := ih i h
      refine ⟨pre, x, suf ++ [e], by rw [hdec]; simp, hlen, hkey, ?_⟩
      intro y hy
      rcases List.mem_append.mp hy with hy | hy
      · exact hlast y hy
      · rw [List.mem_singleton.mp hy, hke]
        simp
    | some s =>
      by_cases hs : s = ""
      · simp only [hke, hs, beq_self_eq_true, if_true, List.append_nil] at h
        obtain ⟨pre, x, suf, hdec, hlen, hkey, hlast⟩ := ih i h
        refine ⟨pre, x, suf ++ [e], by rw [hdec]; simp, hlen, hkey, ?_⟩
        intro y hy
        rcases List.mem_append.mp hy with hy | hy
        · exact hlast y hy
        · rw [List.mem_singleton.mp hy, hke]
          intro hc
          exact hk ((Option.some_injective _ hc).symm.trans hs)
      · have hsb : (s == "") = false := by simpa using hs
        simp only [hke, hsb, Bool.false_eq_true, if_false] at h
        rw [dictFind_snoc] at h
        by_cases hsk : s = k
        · rw [if_pos hsk] at h
          refine ⟨l, e, [], rfl, Option.some_injective _ h, by rw [hke, hsk], ?_⟩
          intro y hy
          simp at hy
        · rw [if_neg hsk] at h
          obtain ⟨pre, x, suf, hdec, hlen, hkey, hlast⟩ := ih i h
          refine ⟨pre, x, suf ++ [e], by rw [hdec]; simp, hlen, hkey, ?_⟩
          intro y hy
          rcases List.mem_append.mp hy with hy | hy
          · exact hlast y hy
          · rw [List.mem_singleton.mp hy, hke]
            intro hc
            exact hsk (Option.some_injective _ hc)

/-! ### Shape of a run on small batches -/

theorem aplicarMatch_match (si ni : Indice) (r : RecJson) (st : SyncState) (i : Nat)
    (hm : resolveMatch si ni (recSerie r) (recNome r) = some i) :
    aplicarMatch si ni r st
      = { st with
          ents := updateAt st.ents i
            (fun e => updateInstrumento e r (recNome r) (recSerie r) (validadeDe r))
          atualizados := st.atualizados + 1 } := by
  unfold aplicarMatch
  simp only [hm, validadeDe]

theorem aplicarMatch_nomatch (si ni : Indice) (r : RecJson) (st : SyncState)
    (hm : resolveMatch si ni (recSerie r) (recNome r) = none) :
    aplicarMatch si ni r st
      = { st with
          novos := st.novos ++ [novoInstrumento r (recNome r) (recSerie r) (validadeDe r)]
          adicionados := st.adicionados + 1 } := by
  unfold aplicarMatch
  simp only [hm, validadeDe]

theorem mem_updateAt_self (l : List Instrumento) (i : Nat)
    (f : Instrumento → Instrumento) (hi : i < l.length) :
    f l[i] ∈ updateAt l i f := by
  induction l generalizing i with
  | nil => simp at hi
  | cons a t ih =>
    cases i with
    | zero => simp [updateAt]
    | succ j =>
      have hj : j < t.length := by simpa using hi
      simp only [updateAt, List.getElem_cons_succ]
      exact List.mem_cons_of_mem a (ih j hj)

theorem stage_single_match (ents0 : List Instrumento) (r : RecJson) (i : Nat)
    (hi : i < ents0.length) (hm : resolveMatchFor ents0 r = some i) :
    updateInstrumento ents0[i] r (recNome r) (recSerie r) (validadeDe r)
        ∈ (sincronizarStage ents0 [r]).1
      ∧ (sincronizarStage ents0 [r]).2.atualizados = 1
      ∧ (sincronizarStage ents0 [r]).2.adicionados = 0 := by
  have hm' : resolveMatch (indiceSerie ents0) (indiceNome ents0) (recSerie r) (recNome r)
      = some i := hm
  have hloopents : (sincronizarLoop ents0 [r]).ents
      = updateAt ents0 i
          (fun e => updateInstrumento e r (recNome r) (recSerie r) (validadeDe r)) := by
    show (processRecord (indiceSerie ents0) (indiceNome ents0) _ r).ents = _
    unfold processRecord
    rw [(marcarProcessado_frame _ _ _).1, aplicarMatch_match _ _ _ _ _ hm']
  have hat : (sincronizarLoop ents0 [r]).atualizados = 1 := by
    show (processRecord (indiceSerie ents0) (indiceNome ents0) _ r).atualizados = 1
    unfold processRecord
    rw [(marcarProcessado_frame _ _ _).2.2.2.1, aplicarMatch_match _ _ _ _ _ hm']
  have had : (sincronizarLoop ents0 [r]).adicionados = 0 := by
    show (processRecord (indiceSerie ents0) (indiceNome ents0) _ r).adicionados = 0
    unfold processRecord
    rw [(marcarProcessado_frame _ _ _).2.2.1, aplicarMatch_match _ _ _ _ _ hm']
  refine ⟨?_, hat, had⟩
  have hmem : updateInstrumento ents0[i] r (recNome r) (recSerie r) (validadeDe r)
      ∈ (sincronizarLoop ents0 [r]).ents := by
    rw [hloopents]
    exact mem_updateAt_self ents0 i _ hi
  have hgood : goodE (chavesDe [r])
      (updateInstrumento ents0[i] r (recNome r) (recSerie r) (validadeDe r)) :=
    goodE_of_orKeyRec [r] r (List.mem_singleton_self r) _
      (orKey_updateInstrumento _ r _)
  have hPK : ∀ k ∈ chavesDe [r], k ∈ (sincronizarLoop ents0 [r]).processados := by
    intro k hk
    unfold sincronizarLoop
    exact (foldl_processados_mem _ _ _ _ _).mpr (Or.inl hk)
  have hstale : staleB (sincronizarLoop ents0 [r]).processados
      (updateInstrumento ents0[i] r (recNome r) (recSerie r) (validadeDe r)) = false :=
    staleB_eq_false_of_good hgood hPK
  show _ ∈ (sincronizarLoop ents0 [r]).ents.filter _ ++ (sincronizarLoop ents0 [r]).novos
  refine List.mem_append_left _ (List.mem_filter.mpr ⟨hmem, ?_⟩)
  rw [hstale]
  rfl

theorem stage_single_nomatch (ents0 : List Instrumento) (r : RecJson)
    (hm : resolveMatchFor ents0 r = none) :
    novoInstrumento r (recNome r) (recSerie r) (validadeDe r) ∈ (sincronizarStage ents0 [r]).1
      ∧ (sincronizarStage ents0 [r]).2.adicionados = 1
      ∧ (sincronizarStage ents0 [r]).2.atualizados = 0 := by
  have hm' : resolveMatch (indiceSerie ents0) (indiceNome ents0) (recSerie r) (recNome r)
      = none := hm
  have hnovos : (sincronizarLoop ents0 [r]).novos
      = [novoInstrumento r (recNome r) (recSerie r) (validadeDe r)] := by
    show (processRecord (indiceSerie ents0) (indiceNome ents0) _ r).novos = _
    unfold processRecord
    rw [(marcarProcessado_frame _ _ _).2.1, aplicarMatch_nomatch _ _ _ _ hm']
    rfl
  have had : (sincronizarLoop ents0 [r]).adicionados = 1 := by
    show (processRecord (indiceSerie ents0) (indiceNome ents0) _ r).adicionados = 1
    unfold processRecord
    rw [(marcarProcessado_frame _ _ _).2.2.1, aplicarMatch_nomatch _ _ _ _ hm']
  have hat : (sincronizarLoop ents0 [r]).atualizados = 0 := by
    show (processRecord (indiceSerie ents0) (indiceNome ents0) _ r).atualizados = 0
    unfold processRecord
    rw [(marcarProcessado_frame _ _ _).2.2.2.1, aplicarMatch_nomatch _ _ _ _ hm']
  refine ⟨?_, had, hat⟩
  show _ ∈ (sincronizarLoop ents0 [r]).ents.filter _ ++ (sincronizarLoop ents0 [r]).novos
  refine List.mem_append_right _ ?_
  rw [hnovos]
  exact List.mem_singleton_self _

/-! ### Remaining helper lemmas -/

theorem staleB_nil (e : Instrumento) : staleB [] e = truthyS (orKey e) := by
  unfold staleB memS
  cases truthyS (orKey e) <;> simp

theorem historico_invariante (fault : List Instrumento → Bool) (s : SessionDB)
    (batch : List RecJson) :
    ((sincronizar_dados fault s batch).1).historico = s.historico := by
  unfold sincronizar_dados
  by_cases hf : fault (sincronizarStage s.instrumentos batch).1 = true
  · simp [hf]
  · simp at hf
    simp [hf]

theorem stage_pair_nomatch (ents0 : List Instrumento) (r1 r2 : RecJson)
    (h1 : resolveMatchFor ents0 r1 = none) (h2 : resolveMatchFor ents0 r2 = none) :
    (sincronizarStage ents0 [r1, r2]).2.adicionados = 2
      ∧ ∃ l, (sincronizarStage ents0 [r1, r2]).1
          = l ++ [novoInstrumento r1 (recNome r1) (recSerie r1) (validadeDe r1),
                  novoInstrumento r2 (recNome r2) (recSerie r2) (validadeDe r2)] := by
  have h1' : resolveMatch (indiceSerie ents0) (indiceNome ents0) (recSerie r1) (recNome r1)
      = none := h1
  have h2' : resolveMatch (indiceSerie ents0) (indiceNome ents0) (recSerie r2) (recNome r2)
      = none := h2
  have hst1novos : (processRecord (indiceSerie ents0) (indiceNome ents0)
      { ents := ents0, novos := [], adicionados := 0, atualizados := 0,
        avisos := 0, processados := [] } r1).novos
      = [novoInstrumento r1 (recNome r1) (recSerie r1) (validadeDe r1)] := by
    unfold processRecord
    rw [(marcarProcessado_frame _ _ _).2.1, aplicarMatch_nomatch _ _ _ _ h1']
    rfl
  have hst1ad : (processRecord (indiceSerie ents0) (indiceNome ents0)
      { ents := ents0, novos := [], adicionados := 0, atualizados := 0,
        avisos := 0, processados := [] } r1).adicionados = 1 := by
    unfold processRecord
    rw [(marcarProcessado_frame _ _ _).2.2.1, aplicarMatch_nomatch _ _ _ _ h1']
  have hnovos : (sincronizarLoop ents0 [r1, r2]).novos
      = [novoInstrumento r1 (recNome r1) (recSerie r1) (validadeDe r1),
         novoInstrumento r2 (recNome r2) (recSerie r2) (validadeDe r2)] := by
    show (processRecord (indiceSerie ents0) (indiceNome ents0)
      (processRecord (indiceSerie ents0) (indiceNome ents0) _ r1) r2).novos = _
    unfold processRecord
    rw [(marcarProcessado_frame _ _ _).2.1, aplicarMatch_nomatch _ _ _ _ h2']
    show (processRecord (indiceSerie ents0) (indiceNome ents0) _ r1).novos ++ _ = _
    rw [hst1novos]
    rfl
  have had : (sincronizarLoop ents0 [r1, r2]).adicionados = 2 := by
    show (processRecord (indiceSerie ents0) (indiceNome ents0)
      (processRecord (indiceSerie ents0) (indiceNome ents0) _ r1) r2).adicionados = 2
    unfold processRecord
    rw [(marcarProcessado_frame _ _ _).2.2.1, aplicarMatch_nomatch _ _ _ _ h2']
    show (processRecord (indiceSerie ents0) (indiceNome ents0) _ r1).adicionados + 1 = 2
    rw [hst1ad]
  constructor
  · exact had
  · refine ⟨(sincronizarLoop ents0 [r1, r2]).ents.filter
      (fun e => !(staleB (sincronizarLoop ents0 [r1, r2]).processados e)), ?_⟩
    show (sincronizarLoop ents0 [r1, r2]).ents.filter _
        ++ (sincronizarLoop ents0 [r1, r2]).novos = _
    rw [hnovos]

theorem processar_fold_mem (dados : List RawRec) (acc : List (List (String × String)))
    (rec : List (String × String))
    (h : rec ∈ dados.foldl
      (fun acc raw =>
        let proc := (processarInstrumento raw).filter (fun p => !(p.2 == "-"))
        if proc.any (fun p => p.1 == "Instrumento") && proc.any (fun p => p.1 == "Tipo") then
          acc ++ [proc]
        else acc) acc) :
    rec ∈ acc
      ∨ ∃ raw, rec = (processarInstrumento raw).filter (fun p => !(p.2 == "-"))
          ∧ rec.any (fun p => p.1 == "Instrumento") = true
          ∧ rec.any (fun p => p.1 == "Tipo") = true := by
  induction dados generalizing acc with
  | nil => exact Or.inl h
  | cons raw t ih =>
    simp only [List.foldl_cons] at h
    rcases ih _ h with hin | hc
    · cases hck : ((processarInstrumento raw).filter (fun p => !(p.2 == "-"))).any
          (fun p => p.1 == "Instrumento")
          && ((processarInstrumento raw).filter (fun p => !(p.2 == "-"))).any
          (fun p => p.1 == "Tipo") with
      | true =>
        rw [if_pos hck] at hin
        rcases List.mem_append.mp hin with hin | hin
        · exact Or.inl hin
        · have heq := List.mem_singleton.mp hin
          have hab := hck
          rw [Bool.and_eq_true] at hab
          refine Or.inr ⟨raw, heq, ?_, ?_⟩
          · rw [heq]
            exact hab.1
          · rw [heq]
            exact hab.2
      | false =>
        rw [if_neg (by rw [hck]; exact Bool.false_ne_true)] at hin
        exact Or.inl hin
    · exact Or.inr hc

/-! ### Claim theorems -/

/-- C1 (amended): re-running `sincronizar_dados` with the batch a store was
just synchronized to removes nothing (`removed = 0`) and appends no history
entries (the engine never writes history), but it does not report all
zeros: every incoming record is counted as either added or updated
(`added + updated = batch length`), because a match increments
`atualizados` unconditionally, field changes or not. -/
theorem c1_reexecucao_corrigida (ents0 : List Instrumento) (hist0 : List Historico)
    (batch : List RecJson) :
    (sincronizarStage (sincronizarStage ents0 batch).1 batch).2.removidos = 0
    ∧ (sincronizarStage (sincronizarStage ents0 batch).1 batch).2.adicionados
        + (sincronizarStage (sincronizarStage ents0 batch).1 batch).2.atualizados
      = batch.length
    ∧ ((sincronizar_dados (fun _ => false)
        { instrumentos := (sincronizarStage ents0 batch).1, historico := hist0 }
        batch).1).historico = hist0 := by
  refine ⟨removidos_second_run ents0 batch, ?_, historico_invariante _ _ _⟩
  show (sincronizarLoop (sincronizarStage ents0 batch).1 batch).adicionados
      + (sincronizarLoop (sincronizarStage ents0 batch).1 batch).atualizados
    = batch.length
  unfold sincronizarLoop
  rw [foldl_counts]
  simp

/-- C1 counterexample: a store synchronized to the single-record batch
`[recA]` and reconciled again with the same batch reports
`atualizados = 1`, not the `updated = 0` the claim requires — the
incoming record is identical to its matched entity in every field, yet
`updated` is incremented. -/
theorem c1_contraexemplo :
    (sincronizarStage (sincronizarStage [] [recA]).1 [recA]).2
      = { adicionados := 0, atualizados := 1, removidos := 0, avisos := 0 } := by
  decide

/-- C2 (amended): on an identity match the engine appends no change-history
entry at all (the session's history table is unchanged on every run) and
instead overwrites every mutable field unconditionally; `atualizados` is
incremented once per matched incoming record — never once per field. -/
theorem c2_atualizacao_sem_historico (fault : List Instrumento → Bool) (s : SessionDB)
    (batch : List RecJson) (ents0 : List Instrumento) (r : RecJson) (i : Nat)
    (hi : i < ents0.length) (hm : resolveMatchFor ents0 r = some i) :
    ((sincronizar_dados fault s batch).1).historico = s.historico
    ∧ updateInstrumento ents0[i] r (recNome r) (recSerie r) (validadeDe r)
        ∈ (sincronizarStage ents0 [r]).1
    ∧ (sincronizarStage ents0 [r]).2.atualizados = 1
    ∧ (sincronizarStage ents0 [r]).2.adicionados = 0 :=
  ⟨historico_invariante fault s batch, (stage_single_match ents0 r i hi hm).1,
    (stage_single_match ents0 r i hi hm).2.1, (stage_single_match ents0 r i hi hm).2.2⟩

/-- C2 witness: the amended statement at a concrete matched record. -/
theorem c2_atualizacao_sem_historico_witness :
    ((sincronizar_dados (fun _ => false) { instrumentos := [], historico := [] }
        []).1).historico = []
    ∧ updateInstrumento ([entC2])[0] recC2 (recNome recC2) (recSerie recC2) (validadeDe recC2)
        ∈ (sincronizarStage [entC2] [recC2]).1
    ∧ (sincronizarStage [entC2] [recC2]).2.atualizados = 1
    ∧ (sincronizarStage [entC2] [recC2]).2.adicionados = 0 :=
  c2_atualizacao_sem_historico (fun _ => false) { instrumentos := [], historico := [] }
    [] [entC2] recC2 0 (by decide) (by decide)

/-- C2 counterexample: the location of `entC2` genuinely changes from `L1`
to `L2`, yet the run appends zero history entries (the claim requires one
per changed field). -/
theorem c2_contraexemplo :
    entC2.localizacao = some "L1"
    ∧ ((sincronizar_dados (fun _ => false)
        { instrumentos := [entC2], historico := [] } [recC2]).1).historico = []
    ∧ (sincronizar_dados (fun _ => false)
        { instrumentos := [entC2], historico := [] } [recC2]).2
      = Except.ok { adicionados := 0, atualizados := 1, removidos := 0, avisos := 0 }
    ∧ ∃ e ∈ ((sincronizar_dados (fun _ => false)
        { instrumentos := [entC2], historico := [] } [recC2]).1).instrumentos,
        e.localizacao = some "L2" := by
  refine ⟨rfl, rfl, rfl, ?_⟩
  decide

/-- C3: for every fault outcome of the commit, `sincronizar_dados` either
surfaces an error with the committed store exactly in its pre-run state
(rollback, lines 175–178), or succeeds with the committed store equal to
the full staged result of the run and the history table unchanged — no
partially applied batch is observable. -/
theorem c3_atomicidade (fault : List Instrumento → Bool) (s : SessionDB)
    (batch : List RecJson) :
    ((sincronizar_dados fault s batch).2 = Except.error "Erro ao sincronizar dados"
        ∧ (sincronizar_dados fault s batch).1 = s)
    ∨ (∃ stats, (sincronizar_dados fault s batch).2 = Except.ok stats
        ∧ ((sincronizar_dados fault s batch).1).instrumentos
            = (sincronizarStage s.instrumentos batch).1
        ∧ ((sincronizar_dados fault s batch).1).historico = s.historico) := by
  unfold sincronizar_dados
  by_cases hf : fault (sincronizarStage s.instrumentos batch).1 = true
  · left
    simp [hf]
  · right
    simp only [Bool.not_eq_true] at hf
    exact ⟨(sincronizarStage s.instrumentos batch).2, by simp [hf]⟩

/-- C4 (amended): the two lookup dictionaries admit every entity with a
non-empty key — the filter is Python truthiness, not
non-placeholder-ness, so the placeholder `"-"` does participate — and the
lookup order is as claimed: a truthy serial found in the serial index wins
immediately; a falsy serial or a serial miss falls back to the name
lookup; the name lookup answers only for a truthy name present in the
name index, and `none` (a new entity) otherwise. -/
theorem c4_indices_e_ordem :
    (∀ key ents k, ¬ k = "" →
        ((dictFind (buildIndex key ents) k).isSome = true ↔ ∃ e ∈ ents, key e = some k))
    ∧ (∀ si ni : Indice, ∀ ns nm : Option String, ∀ i, truthyS ns = true →
        dictFind si (ns.getD "") = some i → resolveMatch si ni ns nm = some i)
    ∧ (∀ si ni : Indice, ∀ ns nm : Option String,
        truthyS ns = false ∨ dictFind si (ns.getD "") = none →
          resolveMatch si ni ns nm = resolveNomeFallback ni nm)
    ∧ (∀ ni : Indice, ∀ nm : Option String, resolveNomeFallback ni nm
        = if truthyS nm = true then dictFind ni (nm.getD "") else none) := by
  refine ⟨dictFind_buildIndex_isSome, ?_, ?_, ?_⟩
  · intro si ni ns nm i hts hf
    obtain ⟨s, hs, hse⟩ := truthyS_exists hts
    subst hs
    unfold resolveMatch
    simp only [hf, hse, Bool.false_eq_true, if_false]
  · intro si ni ns nm h
    rcases h with h | h
    · cases ns with
      | none =>
        unfold resolveMatch
        cases hd : dictFind si ((none : Option String).getD "") <;> simp [hd]
      | some s =>
        have hs : s = "" := by
          have : (s == "") = true := by simpa [truthyS] using h
          simpa using this
        subst hs
        unfold resolveMatch
        cases hd : dictFind si ((some "" : Option String).getD "") <;> simp [hd]
    · cases ns with
      | none =>
        unfold resolveMatch
        cases hd : dictFind si ((none : Option String).getD "") <;> simp [hd]
      | some s =>
        unfold resolveMatch
        simp only [h]
  · intro ni nm
    cases nm with
    | none =>
      unfold resolveNomeFallback
      cases hd : dictFind ni ((none : Option String).getD "") <;> simp [truthyS, hd]
    | some n =>
      unfold resolveNomeFallback
      by_cases hn : n = ""
      · subst hn
        cases hd : dictFind ni ((some "" : Option String).getD "") <;>
          simp [truthyS, hd]
      · have hnb : (n == "") = false := by simpa using hn
        cases hd : dictFind ni ((some n : Option String).getD "") <;>
          simp [truthyS, hd, hnb]

/-- C4 witness: the placeholder serial `"-"` is admitted into the serial
index and wins a lookup. -/
theorem c4_indices_e_ordem_witness :
    ((dictFind (buildIndex (fun e => e.numero_serie) [entC4]) "-").isSome = true)
    ∧ resolveMatch (indiceSerie [entC4]) (indiceNome [entC4]) (some "-") (some "B")
        = some 0 := by
  constructor
  · exact (c4_indices_e_ordem.1 (fun e => e.numero_serie) [entC4] "-" (by decide)).mpr
      ⟨entC4, List.mem_singleton_self entC4, by decide⟩
  · exact c4_indices_e_ordem.2.1 (indiceSerie [entC4]) (indiceNome [entC4])
      (some "-") (some "B") 0 (by decide) (by decide)

/-- C4 counterexample: an incoming record whose serial number is the
placeholder `"-"` and whose name matches nothing is nevertheless matched —
through the serial index — to a persisted entity whose serial number is
also `"-"`; the claim says a placeholder serial never participates in
matching, which would have produced `adicionados = 1`. -/
theorem c4_contraexemplo :
    entC4.numero_serie = some "-" ∧ recSerie recC4 = some "-"
    ∧ entC4.nome = some "A" ∧ recNome recC4 = some "B"
    ∧ (sincronizarStage [entC4] [recC4]).2
      = { adicionados := 0, atualizados := 1, removidos := 0, avisos := 0 } := by
  decide

/-- C5 (amended): when a duplicate non-empty serial number exists in the
snapshot, the serial lookup deterministically answers the LAST entity
encountered during index construction (later dict insertions overwrite
earlier ones), not the first; nothing is logged. -/
theorem c5_ultimo_duplicado_vence (ents : List Instrumento) (k : String) (i : Nat)
    (hk : ¬ k = "") (h : dictFind (indiceSerie ents) k = some i) :
    ∃ pre x suf, ents = pre ++ x :: suf ∧ pre.length = i ∧ x.numero_serie = some k
      ∧ ∀ y ∈ suf, y.numero_serie ≠ some k :=
  dictFind_buildIndex_last (fun e => e.numero_serie) ents k i hk h

/-- C5 witness: with two entities sharing serial `S`, the lookup answer
decomposes the snapshot at position 1 — the second (last) entity. -/
theorem c5_ultimo_duplicado_vence_witness :
    ∃ pre x suf, [entC5a, entC5b] = pre ++ x :: suf ∧ pre.length = 1
      ∧ x.numero_serie = some "S" ∧ ∀ y ∈ suf, y.numero_serie ≠ some "S" :=
  c5_ultimo_duplicado_vence [entC5a, entC5b] "S" 1 (by decide) (by decide)

/-- C5 counterexample: both entities carry serial `S`; the resolver's
index answers position 1 (the later duplicate), so the later duplicate
does win the lookup, contradicting the claimed first-encountered
preference. -/
theorem c5_contraexemplo :
    entC5a.numero_serie = some "S" ∧ entC5b.numero_serie = some "S"
    ∧ ¬ entC5a = entC5b
    ∧ dictFind (indiceSerie [entC5a, entC5b]) "S" = some 1 := by
  decide

/-- C6 (amended): after processing an empty batch every persisted entity
whose deletion-loop identifier (`numero_serie or nome`) is truthy is
deleted and counted exactly once — `removed` equals the number of such
entities, and the survivors are exactly the entities whose serial and
name are both falsy (none or empty), not the whole snapshot; on any batch
`removed` never exceeds the snapshot size. -/
theorem c6_remocao_corrigida (ents0 : List Instrumento) :
    (sincronizarStage ents0 []).1 = ents0.filter (fun e => !(truthyS (orKey e)))
    ∧ (sincronizarStage ents0 []).2.removidos
        = (ents0.filter (fun e => truthyS (orKey e))).length
    ∧ (sincronizarStage ents0 []).2.adicionados = 0
    ∧ (sincronizarStage ents0 []).2.atualizados = 0
    ∧ ∀ batch : List RecJson,
        (sincronizarStage ents0 batch).2.removidos ≤ ents0.length := by
  refine ⟨?_, ?_, rfl, rfl, ?_⟩
  · show ents0.filter (fun e => !(staleB [] e)) ++ [] = _
    rw [List.append_nil]
    exact List.filter_congr (fun e _ => by rw [staleB_nil])
  · show (ents0.filter (fun e => staleB [] e)).length = _
    exact congrArg List.length (List.filter_congr (fun e _ => staleB_nil e))
  · intro batch
    show ((sincronizarLoop ents0 batch).ents.filter
      (staleB (sincronizarLoop ents0 batch).processados)).length ≤ ents0.length
    calc ((sincronizarLoop ents0 batch).ents.filter
          (staleB (sincronizarLoop ents0 batch).processados)).length
        ≤ (sincronizarLoop ents0 batch).ents.length := List.length_filter_le _ _
      _ = ents0.length := by
          unfold sincronizarLoop
          rw [foldl_ents_length]

/-- C6 counterexample: an entity persisted with an empty-string name and
no serial number survives reconciliation with an empty batch — `removed`
is 0, not the snapshot size 1, so the empty batch is not a full clear. -/
theorem c6_contraexemplo :
    entC6.nome = some "" ∧ entC6.numero_serie = none
    ∧ (sincronizarStage [entC6] []).2.removidos = 0
    ∧ (sincronizarStage [entC6] []).1 = [entC6] := by
  decide

/-- C7 (amended): an incoming record with a present, non-placeholder,
unparseable certificate-expiry string increments `avisos`, does not abort
the run and does not skip the record (it still counts as exactly one
added-or-updated record); but the expiry field of the touched entity is
set to null in both the matched and the new-entity case — the previous
persisted value is overwritten, not kept. -/
theorem c7_data_invalida (ents0 : List Instrumento) (r : RecJson) (s : String)
    (hvc : getCampo r "ValidadeCertificado" = some s)
    (hs1 : ¬ s = "") (hs2 : ¬ s = "-") (hbad : parseDataYMD s = none) :
    (sincronizarStage ents0 [r]).2.avisos = 1
    ∧ (sincronizarStage ents0 [r]).2.adicionados
        + (sincronizarStage ents0 [r]).2.atualizados = 1
    ∧ (∀ i, resolveMatchFor ents0 r = some i → ∀ hi : i < ents0.length,
        updateInstrumento ents0[i] r (recNome r) (recSerie r) none
          ∈ (sincronizarStage ents0 [r]).1)
    ∧ (resolveMatchFor ents0 r = none →
        novoInstrumento r (recNome r) (recSerie r) none
          ∈ (sincronizarStage ents0 [r]).1) := by
  have hb1 : (s == "") = false := by simpa using hs1
  have hb2 : (s == "-") = false := by simpa using hs2
  have hpv : parseValidade (getCampo r "ValidadeCertificado") = (none, 1) := by
    rw [hvc]
    simp [parseValidade, hb1, hb2, hbad]
  have hval : validadeDe r = none := by
    unfold validadeDe
    rw [hpv]
  refine ⟨?_, ?_, ?_, ?_⟩
  · show (processRecord (indiceSerie ents0) (indiceNome ents0) _ r).avisos = 1
    rw [processRecord_avisos, hpv]
    simp
  · show (sincronizarLoop ents0 [r]).adicionados
        + (sincronizarLoop ents0 [r]).atualizados = 1
    unfold sincronizarLoop
    rw [foldl_counts]
    simp
  · intro i hm hi
    have hmem := (stage_single_match ents0 r i hi hm).1
    rw [hval] at hmem
    exact hmem
  · intro hm
    have hmem := (stage_single_nomatch ents0 r hm).1
    rw [hval] at hmem
    exact hmem

/-- C7 witness: the amended statement at the concrete unparseable date
`31/12/2025` (not `%Y-%m-%d`). -/
theorem c7_data_invalida_witness :
    (sincronizarStage [] [recC7]).2.avisos = 1
    ∧ (sincronizarStage [] [recC7]).2.adicionados
        + (sincronizarStage [] [recC7]).2.atualizados = 1
    ∧ (∀ i, resolveMatchFor [] recC7 = some i →
        ∀ hi : i < ([] : List Instrumento).length,
        updateInstrumento ([] : List Instrumento)[i] recC7 (recNome recC7)
          (recSerie recC7) none ∈ (sincronizarStage [] [recC7]).1)
    ∧ (resolveMatchFor [] recC7 = none →
        novoInstrumento recC7 (recNome recC7) (recSerie recC7) none
          ∈ (sincronizarStage [] [recC7]).1) :=
  c7_data_invalida [] recC7 "31/12/2025" (by decide) (by decide) (by decide) (by decide)

/-- C7 counterexample: `entC7` holds expiry 2025-01-01; reconciling its
matching record with an unparseable expiry leaves the field null — the
previous value is lost, while the claim says it is kept. -/
theorem c7_contraexemplo :
    entC7.validade_certificado = some ⟨2025, 1, 1⟩
    ∧ (sincronizarStage [entC7] [recC7]).2
      = { adicionados := 0, atualizados := 1, removidos := 0, avisos := 1 }
    ∧ ∀ e ∈ (sincronizarStage [entC7] [recC7]).1, e.validade_certificado = none := by
  decide

/-- C8 (amended): every record produced by the normalizer carries only
fields whose value differs from the placeholder `"-"` — placeholder-valued
fields are REMOVED from the record (line 387), so canonical fields may be
absent — and the mandatory keys `Instrumento` and `Tipo` are always
present in a surviving record. -/
theorem c8_invariante_corrigido (dados : List RawRec) (rec : List (String × String))
    (h : rec ∈ processarDadosInstrumentos dados) :
    (∀ p ∈ rec, ¬ p.2 = "-")
    ∧ (rec.any (fun p => p.1 == "Instrumento") = true)
    ∧ (rec.any (fun p => p.1 == "Tipo") = true) := by
  rcases processar_fold_mem dados [] rec h with h0 | ⟨raw, heq, hI, hT⟩
  · simp at h0
  · refine ⟨?_, hI, hT⟩
    intro p hp
    rw [heq] at hp
    have hb := (List.mem_filter.mp hp).2
    simpa using hb

/-- C8 witness: the amended statement at a concrete raw record. -/
theorem c8_invariante_corrigido_witness :
    (∀ p ∈ recProcC8, ¬ p.2 = "-")
    ∧ (recProcC8.any (fun p => p.1 == "Instrumento") = true)
    ∧ (recProcC8.any (fun p => p.1 == "Tipo") = true) :=
  c8_invariante_corrigido [rawC8] recProcC8 (by decide)

/-- C8 counterexample: the raw record `{name: X, type: T}` normalizes to a
record with exactly 2 fields; the other 15 canonical fields (e.g. `Marca`,
`Número de Série`) are absent rather than present with the placeholder,
contradicting the claimed all-17-fields-present invariant. -/
theorem c8_contraexemplo :
    processarDadosInstrumentos [rawC8] = [recProcC8]
    ∧ recProcC8.length = 2
    ∧ getCampo recProcC8 "Marca" = none
    ∧ getCampo recProcC8 "Número de Série" = none := by
  decide

/-- C9: the lookup dictionaries are built once from the pre-run snapshot
and never updated during the batch: two incoming records sharing an
identity key, neither matching a persisted entity, each create their own
new entity (both appear as separate staged inserts) and `adicionados`
counts both — in-batch duplicates are not merged. -/
theorem c9_duplicatas_no_lote (ents0 : List Instrumento) (r1 r2 : RecJson)
    (_hkey : recKey r1 = recKey r2)
    (h1 : resolveMatchFor ents0 r1 = none) (h2 : resolveMatchFor ents0 r2 = none) :
    (sincronizarStage ents0 [r1, r2]).2.adicionados = 2
    ∧ ∃ l, (sincronizarStage ents0 [r1, r2]).1
        = l ++ [novoInstrumento r1 (recNome r1) (recSerie r1) (validadeDe r1),
                novoInstrumento r2 (recNome r2) (recSerie r2) (validadeDe r2)] :=
  stage_pair_nomatch ents0 r1 r2 h1 h2

/-- C9 witness: two identical new records both create entities. -/
theorem c9_duplicatas_no_lote_witness :
    (sincronizarStage [] [recA, recA]).2.adicionados = 2
    ∧ ∃ l, (sincronizarStage [] [recA, recA]).1
        = l ++ [novoInstrumento recA (recNome recA) (recSerie recA) (validadeDe recA),
                novoInstrumento recA (recNome recA) (recSerie recA) (validadeDe recA)] :=
  c9_duplicatas_no_lote [] recA recA rfl (by decide) (by decide)

/-- C10: on an identity match the engine assigns all 17 mutable fields of
the matched entity from the incoming map — each field becomes exactly
`inst_json.get(key)` (so a key absent from the record sets the field to
null), the expiry becomes the parsed `validade`, and only the surrogate
`id` survives. -/
theorem c10_sobrescrita_completa (ents0 : List Instrumento) (r : RecJson) (i : Nat)
    (hi : i < ents0.length) (hm : resolveMatchFor ents0 r = some i) :
    ∃ e2 ∈ (sincronizarStage ents0 [r]).1,
      e2.id = ents0[i].id
      ∧ e2.spg = getCampo r "SPG" ∧ e2.ensaio = getCampo r "Ensaio"
      ∧ e2.nome = getCampo r "Instrumento" ∧ e2.tipo = getCampo r "Tipo"
      ∧ e2.marca = getCampo r "Marca" ∧ e2.modelo = getCampo r "Modelo"
      ∧ e2.numero_serie = getCampo r "Número de Série"
      ∧ e2.localizacao = getCampo r "Localização" ∧ e2.faixa = getCampo r "Faixa"
      ∧ e2.unidade = getCampo r "Unidade" ∧ e2.status = getCampo r "Status"
      ∧ e2.classe = getCampo r "Classe" ∧ e2.certificado = getCampo r "Certificado"
      ∧ e2.descricao = getCampo r "Descrição"
      ∧ e2.validade_certificado = (parseValidade (getCampo r "ValidadeCertificado")).1
      ∧ e2.criterio_aceitacao = getCampo r "CriterioAceitacao"
      ∧ e2.intervalo_operacao = getCampo r "IntervaloOperacao" :=
  ⟨updateInstrumento ents0[i] r (recNome r) (recSerie r) (validadeDe r),
    (stage_single_match ents0 r i hi hm).1, rfl, rfl, rfl, rfl, rfl, rfl, rfl, rfl,
    rfl, rfl, rfl, rfl, rfl, rfl, rfl, rfl, rfl, rfl⟩

/-- C10 witness: a record carrying only the name key wipes every other
mutable field (brand `M` and status `Ativo` become null). -/
theorem c10_sobrescrita_completa_witness :
    ∃ e2 ∈ (sincronizarStage [entC10] [recC10]).1,
      e2.id = ([entC10])[0].id
      ∧ e2.spg = getCampo recC10 "SPG" ∧ e2.ensaio = getCampo recC10 "Ensaio"
      ∧ e2.nome = getCampo recC10 "Instrumento" ∧ e2.tipo = getCampo recC10 "Tipo"
      ∧ e2.marca = getCampo recC10 "Marca" ∧ e2.modelo = getCampo recC10 "Modelo"
      ∧ e2.numero_serie = getCampo recC10 "Número de Série"
      ∧ e2.localizacao = getCampo recC10 "Localização"
      ∧ e2.faixa = getCampo recC10 "Faixa"
      ∧ e2.unidade = getCampo recC10 "Unidade" ∧ e2.status = getCampo recC10 "Status"
      ∧ e2.classe = getCampo recC10 "Classe"
      ∧ e2.certificado = getCampo recC10 "Certificado"
      ∧ e2.descricao = getCampo recC10 "Descrição"
      ∧ e2.validade_certificado = (parseValidade (getCampo recC10 "ValidadeCertificado")).1
      ∧ e2.criterio_aceitacao = getCampo recC10 "CriterioAceitacao"
      ∧ e2.intervalo_operacao = getCampo recC10 "IntervaloOperacao" :=
  c10_sobrescrita_completa [entC10] recC10 0 (by decide) (by decide)
